import Mathlib

/-
Verification development for the autoimpute single-imputation core.

Shallow embedding of the two source modules:
  * `autoimpute/imputations/series/default.py`
      (`DefaultBaseImputer`, `DefaultSingleImputer`)
  * `autoimpute/imputations/dataframe/single_imputer.py`
      (`SingleImputer`)

Modelling conventions:
  * a pandas Series is a dtype together with a list of optional values
    (`none` = NaN / missing); row positions are list indices, matching the
    default RangeIndex;
  * a DataFrame is an association list from column name to Series with
    label-unique columns (a pandas DataFrame keyed like a dict);
  * Python exceptions become an explicit error type `PyErr`, and every
    fallible operation returns `Except PyErr _`;
  * in-place mutation of a Series argument is modelled by explicit state
    passing: a sub-imputer's `transform(X)` both returns a value and leaves
    `X` in a new state, so it is embedded as two functions, the mutation
    effect and the (separately modelled, possibly discarded) return value;
  * the concrete statistical sub-imputers (MeanImputer, ModeImputer, ...)
    are external collaborators (out of scope per the spec) and appear as
    abstract values of `SubImputer`;
  * console printing (`verbose`) is modelled as a log of strings returned
    next to the result; the `check_nan_columns` decorator lives in
    `autoimpute.utils`, outside the sources, and only rejects inputs, so
    the theorems below condition on the embedded body's own outcome.
-/

namespace Autoimpute

/-- Dtype classification that `default.py` reads off a pandas Series via
`is_numeric_dtype` / `is_string_dtype`; the two predicates are mutually
exclusive in pandas, so a dtype is exactly one of the three cases. -/
inductive Dtype where
  | numeric
  | string
  | other
  deriving DecidableEq

/-- A pandas Series: a dtype plus positional data, `none` marking NaN. -/
structure Series (α : Type) where
  dtype : Dtype
  data : List (Option α)
  deriving DecidableEq

/-- A pandas DataFrame: association list of label-unique named columns. -/
abbrev DataFrame (α : Type) := List (String × Series α)

/-- Python exceptions raised by the embedded code. -/
inductive PyErr where
  | typeError (msg : String)
  | valueError (msg : String)
  | attributeError (msg : String)
  | keyError (msg : String)
  | notFittedError
  deriving DecidableEq

/-- First-match association-list lookup (Python dict / column lookup). -/
def alookup {β : Type _} : List (String × β) → String → Option β
  | [], _ => none
  | (n, b) :: rest, c => if n = c then some b else alookup rest c

/-- Replace the value bound to an existing column label (the write-back
`X.loc[imp_ix, column] = ...` targets an existing, unique column). -/
def dfSet {α : Type} : DataFrame α → String → Series α → DataFrame α
  | [], _, _ => []
  | (n, t) :: rest, c, s =>
      if n = c then (n, s) :: rest else (n, t) :: dfSet rest c s

/-- Row positions at or past index `i` where the data is missing, in
increasing order. -/
def missingFrom {α : Type} : Nat → List (Option α) → List Nat
  | _, [] => []
  | i, none :: rest => i :: missingFrom (i + 1) rest
  | i, some _ :: rest => missingFrom (i + 1) rest

/-- Ordered list of row positions where the column is missing:
`X[column][X[column].isnull()].index.tolist()`. -/
def missingIndices {α : Type} (d : List (Option α)) : List Nat :=
  missingFrom 0 d

/-- A fitted statistical sub-imputer instance (external collaborator, e.g. a
fitted MeanImputer).  Its `transform(X)` call both mutates its argument in
place and returns a value; `transformMut` is the in-place effect on the
argument and `transformRet` the returned object, modelled separately because
`DefaultBaseImputer.transform` discards the latter. -/
structure FittedSub (α : Type) where
  transformMut : Series α → Series α
  transformRet : Series α → Series α

/-- An instantiated (constructed, not yet fitted) statistical sub-imputer
held by `DefaultBaseImputer` (`self._num_imputer` / `self._cat_imputer`):
it exposes its strategy name and a `fit` that returns the fitted self. -/
structure SubImputer (α : Type) where
  strategy : String
  fit : Series α → FittedSub α

/-- Contents of `DefaultBaseImputer.statistics_`: the dict
`{"param": ..., "strategy": ...}` built by `DefaultBaseImputer.fit`.
`param` holds the fitted sub-imputer or `None`; `strategy` the delegated
sub-imputer's strategy name or `None`. -/
structure DefaultStats (α : Type) where
  param : Option (FittedSub α)
  strategy : Option String

/-- State of a `DefaultBaseImputer` object: the two sub-imputer instances
created in `__init__` (from the validated class + kwargs), and
`statistics_`, absent (`none`) until `fit` runs. -/
structure DefaultBaseImputer (α : Type) where
  num_imputer : SubImputer α
  cat_imputer : SubImputer α
  statistics_ : Option (DefaultStats α)

/-- Embedding of `DefaultBaseImputer.fit` (default.py lines 156-177):
numeric dtype delegates to the numeric sub-imputer, string dtype to the
categorical one, any other dtype stores `{"param": None, "strategy": None}`;
the branches are an if/elif/else, so exactly one case applies. -/
def DefaultBaseImputer.fit {α : Type} (self : DefaultBaseImputer α)
    (X : Series α) : DefaultBaseImputer α :=
  let stats : DefaultStats α :=
    if X.dtype = Dtype.numeric then
      ⟨some (self.num_imputer.fit X), some self.num_imputer.strategy⟩
    else if X.dtype = Dtype.string then
      ⟨some (self.cat_imputer.fit X), some self.cat_imputer.strategy⟩
    else
      ⟨none, none⟩
  { self with statistics_ := some stats }

/-- Embedding of `DefaultBaseImputer.transform` (default.py lines 179-198):
`check_is_fitted`, then `imp = self.statistics_["param"]`; if `imp` is
truthy its `transform` is invoked on `X` (in-place mutation, return value
discarded) and the method returns `X` itself — i.e. the mutated state of the
argument — and returns `X` unchanged when `param` is `None`. -/
def DefaultBaseImputer.transform {α : Type} (self : DefaultBaseImputer α)
    (X : Series α) : Except PyErr (Series α) :=
  match self.statistics_ with
  | none => .error .notFittedError
  | some stats =>
      match stats.param with
      | some imp => .ok (imp.transformMut X)
      | none => .ok X

/-- Embedding of `DefaultSingleImputer.transform` (default.py lines
259-262): `super().transform(X); return X`.  The parent call mutates `X`
(through the delegated sub-imputer) and the method returns the same object
`X`, whose final state is exactly what the parent call produced, so in the
state-passing embedding the two methods coincide. -/
def DefaultSingleImputer.transform {α : Type} (self : DefaultBaseImputer α)
    (X : Series α) : Except PyErr (Series α) :=
  DefaultBaseImputer.transform self X

/-- Embedding of `DefaultSingleImputer.fit` (default.py lines 254-257):
`super().fit(X); return self`. -/
def DefaultSingleImputer.fit {α : Type} (self : DefaultBaseImputer α)
    (X : Series α) : DefaultBaseImputer α :=
  DefaultBaseImputer.fit self X

/-- Python rendering of `statistics_["strategy"]` inside an f-string:
either the stored name or the text `None`. -/
def optStrategyStr : Option String → String
  | some s => s
  | none => "None"

/-- View of a fitted imputer object as the orchestrator's transform loop
sees it: `statistics_["strategy"]` (read only under `verbose`) and the
`impute` method, `none` when the object's class defines no such method, in
which case attribute lookup raises `AttributeError`.  The method receives
the full column `X[column]` and its result is aligned to the missing row
positions, hence the position-indexed embedding. -/
structure StoredImputer (α : Type) where
  stats_strategy : String
  impute : Option (Series α → Nat → Option α)

/-- A constructed, not yet fitted pluggable imputer: `fit(column)` returns
the fitted self, viewed as a `StoredImputer`.  Per the pluggable-imputer
contract (spec section 6) `fit` tolerates missing values and is total. -/
structure UnfittedImputer (α : Type) where
  fit : Series α → StoredImputer α

/-- A Registry entry: the class name (`imp.__name__`) and construction from
resolved keyword arguments (`imp()` / `imp(**imp_params)`), which can raise
(e.g. `TypeError` on unknown keywords, or the class's own validation
errors). -/
structure ImputerFactory (α : Type) where
  name : String
  construct : Option (List (String × String)) → Except PyErr (UnfittedImputer α)

/-- View of a fitted `DefaultSingleImputer` as a stored imputer: it exposes
`statistics_["strategy"]` via `DefaultBaseImputer.fit`'s stats dict, and its
class (default.py lines 200-262, plus `DefaultBaseImputer` and the sklearn
mixins) defines `fit` and `transform` but no `impute` method at all, so the
`impute` attribute is absent. -/
def DefaultBaseImputer.toStored {α : Type} (self : DefaultBaseImputer α) :
    StoredImputer α where
  stats_strategy :=
    optStrategyStr (match self.statistics_ with
      | some stats => stats.strategy
      | none => none)
  impute := none

/-- The Registry's `default` entry: constructing a `DefaultSingleImputer`
(here with its two sub-imputer instances already validated and built, the
concrete statistical classes being external collaborators) and fitting it
via `DefaultBaseImputer.fit`. -/
def defaultSingleFactory {α : Type} (num cat : SubImputer α) :
    ImputerFactory α where
  name := "DefaultSingleImputer"
  construct := fun _ =>
    .ok ⟨fun X => (DefaultBaseImputer.fit ⟨num, cat, none⟩ X).toStored⟩

/-- The user-supplied strategy specification: a single name, an ordered
sequence, or a column-name-keyed mapping. -/
inductive StrategySpec where
  | str (s : String)
  | seq (l : List String)
  | map (m : List (String × String))

/-- Modelled from the spec: `BaseImputer.check_strategy_fit` lives in
`base_imputer.py`, which is not among the sources.  Per spec section 4.1:
a single name is broadcast to every column (`InvalidStrategy` if unknown);
an ordered sequence must have exactly one name per column
(`StrategyColumnMismatch` otherwise) and maps positionally; a mapping must
use existing columns as keys and known names as values (`InvalidStrategy`
otherwise), columns absent from it getting the default sentinel. -/
def check_strategy_fit (registry : List String) (spec : StrategySpec)
    (cols : List String) : Except PyErr (List (String × String)) :=
  match spec with
  | .str s =>
      if s ∈ registry then .ok (cols.map fun c => (c, s))
      else .error (.valueError "InvalidStrategy")
  | .seq l =>
      if l.length = cols.length then .ok (cols.zip l)
      else .error (.valueError "StrategyColumnMismatch")
  | .map m =>
      if m.all (fun p => p.1 ∈ cols && p.2 ∈ registry) then
        .ok (cols.map fun c => (c, (alookup m c).getD "default"))
      else .error (.valueError "InvalidStrategy")

/-- Modelled from the spec: `BaseImputer._fit_init_params` lives in
`base_imputer.py`, which is not among the sources.  Per spec section 4.2:
exact column-name key first, else strategy-name key, else `None`, without
validating the contents. -/
def fit_init_params (column method : String)
    (kwgs : Option (List (String × List (String × String)))) :
    Option (List (String × String)) :=
  match kwgs with
  | none => none
  | some table =>
      match alookup table column with
      | some k => some k
      | none => alookup table method

/-- State of a `SingleImputer` object (single_imputer.py): constructor
configuration (`strategy`, `imp_kwgs`, `copy`, `verbose`) plus the mutable
attributes `_strats` (set by `_fit_strategy_validator`), `statistics_`
(absent before the first `fit`) and `imputed_` (absent before the first
`transform`). -/
structure SingleImputer (α : Type) where
  strategy : StrategySpec
  imp_kwgs : Option (List (String × List (String × String)))
  copy : Bool
  verbose : Bool
  strats : List (String × String)
  statistics_ : Option (List (String × StoredImputer α))
  imputed_ : Option (List (String × List Nat))

/-- The column-by-column body of `SingleImputer.fit` (single_imputer.py
lines 185-209): look the strategy up in the class Registry, resolve kwargs,
construct the imputer — catching exactly `TypeError` and re-raising it as
`ValueError("Invalid arguments passed to {name} __init__ method.")`, any
other construction error propagating — then fit it on `X[column]` and store
it in `statistics_` under the column name. -/
def fitLoop {α : Type} (registry : List (String × ImputerFactory α))
    (kwgs : Option (List (String × List (String × String))))
    (X : DataFrame α) :
    List (String × String) → List (String × StoredImputer α) →
    List (String × StoredImputer α) × Except PyErr Unit
  | [], acc => (acc, .ok ())
  | (column, method) :: rest, acc =>
      match alookup registry method with
      | none => (acc, .error (.keyError method))
      | some imp =>
          match imp.construct (fit_init_params column method kwgs) with
          | .error (.typeError _) =>
              (acc, .error (.valueError
                ("Invalid arguments passed to " ++ imp.name ++
                 " __init__ method.")))
          | .error e => (acc, .error e)
          | .ok unfitted =>
              match alookup X column with
              | none => (acc, .error (.keyError column))
              | some series =>
                  fitLoop registry kwgs X rest
                    (acc ++ [(column, unfitted.fit series)])

/-- Embedding of `SingleImputer.fit` (single_imputer.py lines 155-211):
`_fit_strategy_validator` resolves `self._strats` (failures leave the
object untouched), `self.statistics_ = {}` discards the previous store,
then the per-column loop runs; the returned pair is the object state after
the call together with the call's outcome. -/
def SingleImputer.fit {α : Type}
    (registry : List (String × ImputerFactory α)) (st : SingleImputer α)
    (X : DataFrame α) : SingleImputer α × Except PyErr Unit :=
  match check_strategy_fit (registry.map Prod.fst) st.strategy
      (X.map Prod.fst) with
  | .error e => (st, .error e)
  | .ok strats =>
      let (store, res) := fitLoop registry st.imp_kwgs X strats []
      ({ st with strats := strats, statistics_ := some store }, res)

/-- Console line announcing a column in the transform loop. -/
def transformLogLine (column strat : String) : String :=
  "Transforming " ++ column ++ " with strategy " ++ strat

/-- Console line counting the imputations for a column. -/
def imputationCountLine (n : Nat) : String :=
  "Numer of imputations to perform: " ++ toString n

/-- Data at or past index `i` after the write-back, threading the absolute
row position: missing entries receive the impute result for their position,
observed entries keep their value. -/
def imputeFrom {α : Type} (f : Series α → Nat → Option α) (s : Series α) :
    Nat → List (Option α) → List (Option α)
  | _, [] => []
  | i, none :: rest => f s i :: imputeFrom f s (i + 1) rest
  | i, some v :: rest => some v :: imputeFrom f s (i + 1) rest

/-- Write-back of `X.loc[imp_ix, column] = imputer.impute(X[column])`: the
impute result is placed at exactly the missing row positions of the column,
every observed position keeping its value; length and dtype of the column
are unchanged. -/
def imputeData {α : Type} (f : Series α → Nat → Option α) (s : Series α) :
    List (Option α) :=
  imputeFrom f s 0 s.data

/-- Console narration for one column of the transform loop, printed only
under `verbose`: the strategy line (reading
`imputer.statistics_["strategy"]`) followed by the count of imputations or
the skip notice. -/
def loopLog (verbose : Bool) (column strat : String) (imp_ix : List Nat) :
    List String :=
  if verbose then
    [transformLogLine column strat,
     if imp_ix = [] then "No imputations, moving to next column..."
     else imputationCountLine imp_ix.length]
  else []

/-- The column-by-column body of `SingleImputer.transform`
(single_imputer.py lines 240-257): record the missing row positions
`imp_ix` of `X[column]` in `imputed_`, narrate under `verbose`, skip the
column when nothing is missing, otherwise look up the `impute` attribute
(AttributeError when the stored object's class defines none) and write its
values back into the missing positions.  Returns the updated frame,
`self.imputed_`, and the console log. -/
def transformLoop {α : Type} (verbose : Bool) :
    List (String × StoredImputer α) → DataFrame α →
    Except PyErr (DataFrame α × List (String × List Nat) × List String)
  | [], X => .ok (X, [], [])
  | (column, imputer) :: rest, X =>
      match alookup X column with
      | none => .error (.keyError column)
      | some s =>
          if missingIndices s.data = [] then
            (transformLoop verbose rest X).map fun r =>
              (r.1, (column, missingIndices s.data) :: r.2.1,
               loopLog verbose column imputer.stats_strategy
                 (missingIndices s.data) ++ r.2.2)
          else
            match imputer.impute with
            | none => .error (.attributeError "impute")
            | some f =>
                (transformLoop verbose rest
                    (dfSet X column ⟨s.dtype, imputeData f s⟩)).map fun r =>
                  (r.1, (column, missingIndices s.data) :: r.2.1,
                   loopLog verbose column imputer.stats_strategy
                     (missingIndices s.data) ++ r.2.2)

/-- Console banner of the transform phase. -/
def transformBanner : String :=
  "PERFORMING IMPUTATIONS ON DATA BASED ON FIT..."

/-- Embedding of `SingleImputer.transform` (single_imputer.py lines
213-258): copy (a no-op on values), `_transform_strategy_validator`
(`check_is_fitted` on `statistics_`, then every fitted column — a key of
`self._strats` — must appear among the input's columns, else
`ValueError("Same columns that were fit must appear in transform.")`),
verbose banner, `self.imputed_ = {}` and the per-column loop.  Returns the
imputed frame, the rebuilt `imputed_` record, and the console log. -/
def SingleImputer.transform {α : Type} (st : SingleImputer α)
    (X : DataFrame α) :
    Except PyErr (DataFrame α × List (String × List Nat) × List String) :=
  match st.statistics_ with
  | none => .error .notFittedError
  | some store =>
      if st.strats.any (fun p => !(alookup X p.1).isSome) then
        .error (.valueError "Same columns that were fit must appear in transform.")
      else
        (transformLoop st.verbose store X).map fun r =>
          (r.1, r.2.1, (if st.verbose then [transformBanner] else []) ++ r.2.2)

/-- Observable outcome of a transform call with the console log erased:
the returned table, the `imputed_` record, and the success-or-error
status. -/
def resultOf {α : Type}
    (r : Except PyErr (DataFrame α × List (String × List Nat) × List String)) :
    Except PyErr (DataFrame α × List (String × List Nat)) :=
  match r with
  | .error e => .error e
  | .ok t => .ok (t.1, t.2.1)

/-! Substring test, used to formalise that an error message "names" a
column: the column's name occurs in the message text. -/

/-- Whether `pat` is an initial segment of the character list. -/
def leadMatch : List Char → List Char → Bool
  | [], _ => true
  | _ :: _, [] => false
  | p :: ps, c :: cs => p == c && leadMatch ps cs

/-- Whether `pat` occurs as a contiguous segment of the character list. -/
def hasSubAux (pat : List Char) : List Char → Bool
  | [] => leadMatch pat []
  | c :: cs => leadMatch pat (c :: cs) || hasSubAux pat cs

/-- Whether the string `pat` occurs inside `msg` (so `msg` names `pat`). -/
def strHasSub (msg pat : String) : Bool :=
  hasSubAux pat.toList msg.toList

/-! Association-list and write-back lemmas. -/

theorem alookup_dfSet_self {α : Type} (c : String) (s : Series α) :
    ∀ X : DataFrame α, (alookup X c).isSome →
      alookup (dfSet X c s) c = some s := by
  intro X
  induction X with
  | nil => intro h; simp [alookup] at h
  | cons p rest ih =>
    obtain ⟨n, t⟩ := p
    intro h
    by_cases hn : n = c
    · simp [dfSet, alookup, hn]
    · simp only [alookup, if_neg hn] at h
      simp only [dfSet, if_neg hn, alookup, if_neg hn]
      exact ih h

theorem alookup_dfSet_ne {α : Type} (c c' : String) (s : Series α)
    (hne : c' ≠ c) : ∀ X : DataFrame α,
      alookup (dfSet X c s) c' = alookup X c' := by
  intro X
  induction X with
  | nil => simp [dfSet]
  | cons p rest ih =>
    obtain ⟨n, t⟩ := p
    by_cases hn : n = c
    · subst hn
      have hnc' : n ≠ c' := fun h => hne h.symm
      simp only [dfSet, if_pos rfl, alookup, if_neg hnc']
    · simp only [dfSet, if_neg hn, alookup]
      by_cases hn' : n = c'
      · simp [hn']
      · simp only [if_neg hn']
        exact ih

theorem dfSet_absent {α : Type} (c : String) (s : Series α) :
    ∀ X : DataFrame α, alookup X c = none → dfSet X c s = X := by
  intro X
  induction X with
  | nil => intro _; rfl
  | cons p rest ih =>
    obtain ⟨n, t⟩ := p
    intro h
    by_cases hn : n = c
    · simp [alookup, hn] at h
    · simp only [alookup, if_neg hn] at h
      simp only [dfSet, if_neg hn, ih h]

theorem alookup_dfSet_isSome {α : Type} (c c' : String) (s : Series α)
    (X : DataFrame α) :
    (alookup (dfSet X c s) c').isSome = (alookup X c').isSome := by
  by_cases hne : c' = c
  · subst hne
    cases h : alookup X c' with
    | none => rw [dfSet_absent c' s X h, h]
    | some t => rw [alookup_dfSet_self c' s X (by rw [h]; rfl)]; rfl
  · rw [alookup_dfSet_ne c c' s hne X]

/-! Write-back lemmas: length, observed positions, and missing positions
of an imputed column. -/

theorem length_imputeFrom {α : Type} (f : Series α → Nat → Option α)
    (s : Series α) : ∀ (d : List (Option α)) (i : Nat),
      (imputeFrom f s i d).length = d.length := by
  intro d
  induction d with
  | nil => intro i; rfl
  | cons a rest ih =>
    intro i
    cases a with
    | none => simp [imputeFrom, ih]
    | some v => simp [imputeFrom, ih]

theorem length_imputeData {α : Type} (f : Series α → Nat → Option α)
    (s : Series α) : (imputeData f s).length = s.data.length :=
  length_imputeFrom f s s.data 0

theorem getD_imputeFrom_observed {α : Type} (f : Series α → Nat → Option α)
    (s : Series α) : ∀ (d : List (Option α)) (i k : Nat) (v : α),
      d.getD k none = some v → (imputeFrom f s i d).getD k none = some v := by
  intro d
  induction d with
  | nil => intro i k v h; simp [List.getD] at h
  | cons a rest ih =>
    intro i k v h
    cases k with
    | zero =>
      rw [List.getD_cons_zero] at h
      subst h
      rfl
    | succ k =>
      rw [List.getD_cons_succ] at h
      cases a with
      | none => rw [imputeFrom, List.getD_cons_succ]; exact ih (i + 1) k v h
      | some w => rw [imputeFrom, List.getD_cons_succ]; exact ih (i + 1) k v h

theorem missingFrom_imputeFrom {α : Type} (f : Series α → Nat → Option α)
    (s : Series α) : ∀ (d : List (Option α)) (i : Nat),
      (∀ j ∈ missingFrom i d, (f s j).isSome) →
      missingFrom i (imputeFrom f s i d) = [] := by
  intro d
  induction d with
  | nil => intro i _; rfl
  | cons a rest ih =>
    intro i h
    cases a with
    | none =>
      have hi : (f s i).isSome := h i (by rw [missingFrom]; exact List.mem_cons_self i _)
      obtain ⟨v, hv⟩ := Option.isSome_iff_exists.mp hi
      rw [imputeFrom, hv, missingFrom]
      exact ih (i + 1) fun j hj =>
        h j (by rw [missingFrom]; exact List.mem_cons_of_mem i hj)
    | some v =>
      rw [imputeFrom, missingFrom]
      exact ih (i + 1) fun j hj => h j (by rw [missingFrom]; exact hj)

theorem missingIndices_imputeData {α : Type} (f : Series α → Nat → Option α)
    (s : Series α) (h : ∀ j ∈ missingIndices s.data, (f s j).isSome) :
    missingIndices (imputeData f s) = [] :=
  missingFrom_imputeFrom f s s.data 0 h

/-! Transform-loop lemmas: recorded keys, frame property on untouched
columns, and the per-column characterisation of a successful loop run. -/

theorem transformLoop_keys {α : Type} (v : Bool) :
    ∀ (store : List (String × StoredImputer α)) (X X' : DataFrame α)
      (ixs : List (String × List Nat)) (log : List String),
      transformLoop v store X = .ok (X', ixs, log) →
      ixs.map Prod.fst = store.map Prod.fst
      ∧ ∀ c, c ∉ store.map Prod.fst → alookup X' c = alookup X c := by
  intro store
  induction store with
  | nil =>
    intro X X' ixs log h
    simp only [transformLoop, Except.ok.injEq, Prod.mk.injEq] at h
    obtain ⟨h1, h2, h3⟩ := h
    subst h1; subst h2
    exact ⟨rfl, fun c _ => rfl⟩
  | cons hd rest ih =>
    obtain ⟨c0, imp0⟩ := hd
    intro X X' ixs log h
    rw [transformLoop] at h
    split at h
    · exact absurd h (by simp)
    · next s hX =>
      split at h
      · next hmi =>
        cases hrec : transformLoop v rest X with
        | error e => rw [hrec] at h; simp [Except.map] at h
        | ok r =>
          obtain ⟨X1, ixs1, log1⟩ := r
          rw [hrec] at h
          simp only [Except.map, Except.ok.injEq, Prod.mk.injEq] at h
          obtain ⟨hx, hi, hl⟩ := h
          subst hx; subst hi
          obtain ⟨ikeys, iframe⟩ := ih X X1 ixs1 log1 hrec
          constructor
          · simp [ikeys]
          · intro c hc
            simp only [List.map_cons, List.mem_cons, not_or] at hc
            exact iframe c hc.2
      · next hmi =>
        split at h
        · exact absurd h (by simp)
        · next f hf =>
          cases hrec : transformLoop v rest (dfSet X c0 ⟨s.dtype, imputeData f s⟩) with
          | error e => rw [hrec] at h; simp [Except.map] at h
          | ok r =>
            obtain ⟨X1, ixs1, log1⟩ := r
            rw [hrec] at h
            simp only [Except.map, Except.ok.injEq, Prod.mk.injEq] at h
            obtain ⟨hx, hi, hl⟩ := h
            subst hx; subst hi
            obtain ⟨ikeys, iframe⟩ := ih _ X1 ixs1 log1 hrec
            constructor
            · simp [ikeys]
            · intro c hc
              simp only [List.map_cons, List.mem_cons, not_or] at hc
              rw [iframe c hc.2]
              exact alookup_dfSet_ne c0 c _ hc.1 X

theorem transformLoop_columns {α : Type} (v : Bool) :
    ∀ (store : List (String × StoredImputer α)) (X X' : DataFrame α)
      (ixs : List (String × List Nat)) (log : List String),
      (store.map Prod.fst).Nodup →
      transformLoop v store X = .ok (X', ixs, log) →
      ∀ c imp, (c, imp) ∈ store → ∃ s, alookup X c = some s
        ∧ alookup ixs c = some (missingIndices s.data)
        ∧ (missingIndices s.data = [] → alookup X' c = some s)
        ∧ (missingIndices s.data ≠ [] → ∃ f, imp.impute = some f
            ∧ alookup X' c = some ⟨s.dtype, imputeData f s⟩) := by
  intro store
  induction store with
  | nil => intro X X' ixs log _ h c imp hmem; exact absurd hmem (List.not_mem_nil _)
  | cons hd rest ih =>
    obtain ⟨c0, imp0⟩ := hd
    intro X X' ixs log hnodup h c imp hmem
    rw [List.map_cons, List.nodup_cons] at hnodup
    obtain ⟨hc0, hnodup2⟩ := hnodup
    rw [transformLoop] at h
    split at h
    · exact absurd h (by simp)
    · next s hX =>
      split at h
      · next hmi =>
        cases hrec : transformLoop v rest X with
        | error e => rw [hrec] at h; simp [Except.map] at h
        | ok r =>
          obtain ⟨X1, ixs1, log1⟩ := r
          rw [hrec] at h
          simp only [Except.map, Except.ok.injEq, Prod.mk.injEq] at h
          obtain ⟨hx, hi, hl⟩ := h
          subst hx; subst hi
          obtain ⟨ikeys, iframe⟩ := transformLoop_keys v rest X X1 ixs1 log1 hrec
          rcases List.mem_cons.mp hmem with hhd | htl
          · injection hhd with hc him
            subst hc; subst him
            refine ⟨s, hX, by simp [alookup], fun _ => ?_, fun hne => absurd hmi hne⟩
            rw [iframe c hc0, hX]
          · have hcrest : c ∈ rest.map Prod.fst := List.mem_map.mpr ⟨(c, imp), htl, rfl⟩
            have hcc0 : c ≠ c0 := fun he => hc0 (he ▸ hcrest)
            obtain ⟨s2, hs2, hix2, hemp2, hfill2⟩ :=
              ih X X1 ixs1 log1 hnodup2 hrec c imp htl
            refine ⟨s2, hs2, ?_, hemp2, hfill2⟩
            rw [alookup, if_neg fun he => hcc0 he.symm]
            exact hix2
      · next hmi =>
        split at h
        · exact absurd h (by simp)
        · next f hf =>
          cases hrec : transformLoop v rest (dfSet X c0 ⟨s.dtype, imputeData f s⟩) with
          | error e => rw [hrec] at h; simp [Except.map] at h
          | ok r =>
            obtain ⟨X1, ixs1, log1⟩ := r
            rw [hrec] at h
            simp only [Except.map, Except.ok.injEq, Prod.mk.injEq] at h
            obtain ⟨hx, hi, hl⟩ := h
            subst hx; subst hi
            obtain ⟨ikeys, iframe⟩ := transformLoop_keys v rest _ X1 ixs1 log1 hrec
            rcases List.mem_cons.mp hmem with hhd | htl
            · injection hhd with hc him
              subst hc; subst him
              refine ⟨s, hX, by simp [alookup], fun he => absurd he hmi, fun _ => ⟨f, hf, ?_⟩⟩
              rw [iframe c hc0]
              exact alookup_dfSet_self c _ X (by rw [hX]; rfl)
            · have hcrest : c ∈ rest.map Prod.fst := List.mem_map.mpr ⟨(c, imp), htl, rfl⟩
              have hcc0 : c ≠ c0 := fun he => hc0 (he ▸ hcrest)
              obtain ⟨s2, hs2, hix2, hemp2, hfill2⟩ :=
                ih _ X1 ixs1 log1 hnodup2 hrec c imp htl
              rw [alookup_dfSet_ne c0 c _ hcc0 X] at hs2
              refine ⟨s2, hs2, ?_, hemp2, hfill2⟩
              rw [alookup, if_neg fun he => hcc0 he.symm]
              exact hix2

/-! Further loop lemmas: a loop over fully-imputed columns is the
identity, the loop never raises `NotFittedError`, and the loop's
observable outcome ignores `verbose`. -/

theorem transformLoop_noMissing {α : Type} (v : Bool) :
    ∀ (store : List (String × StoredImputer α)) (X : DataFrame α),
      (∀ p ∈ store, ∃ s, alookup X p.1 = some s ∧ missingIndices s.data = []) →
      ∃ log, transformLoop v store X =
        .ok (X, store.map (fun p => (p.1, ([] : List Nat))), log) := by
  intro store
  induction store with
  | nil => intro X _; exact ⟨[], rfl⟩
  | cons hd rest ih =>
    obtain ⟨c0, imp0⟩ := hd
    intro X h
    obtain ⟨s, hs, hmi⟩ := h (c0, imp0) (List.mem_cons_self _ _)
    obtain ⟨log1, hrec⟩ := ih X (fun p hp => h p (List.mem_cons_of_mem _ hp))
    refine ⟨loopLog v c0 imp0.stats_strategy (missingIndices s.data) ++ log1, ?_⟩
    simp only [transformLoop, hs, hmi, hrec, Except.map, List.map_cons,
      eq_self_iff_true, if_true]

theorem transformLoop_ne_notFitted {α : Type} (v : Bool) :
    ∀ (store : List (String × StoredImputer α)) (X : DataFrame α),
      transformLoop v store X ≠ .error .notFittedError := by
  intro store
  induction store with
  | nil => intro X h; simp [transformLoop] at h
  | cons hd rest ih =>
    obtain ⟨c0, imp0⟩ := hd
    intro X h
    rw [transformLoop] at h
    split at h
    · simp at h
    · next s hX =>
      split at h
      · next hmi =>
        cases hrec : transformLoop v rest X with
        | ok r => rw [hrec] at h; simp [Except.map] at h
        | error e =>
          rw [hrec] at h
          simp only [Except.map, Except.error.injEq] at h
          subst h
          exact ih X hrec
      · next hmi =>
        split at h
        · simp at h
        · next f hf =>
          cases hrec : transformLoop v rest (dfSet X c0 ⟨s.dtype, imputeData f s⟩) with
          | ok r => rw [hrec] at h; simp [Except.map] at h
          | error e =>
            rw [hrec] at h
            simp only [Except.map, Except.error.injEq] at h
            subst h
            exact ih _ hrec

theorem resultOf_map_entry {α : Type} (c : String) (ix : List Nat)
    (L : List String)
    (r : Except PyErr (DataFrame α × List (String × List Nat) × List String)) :
    resultOf (r.map fun t => (t.1, (c, ix) :: t.2.1, L ++ t.2.2)) =
      match resultOf r with
      | .error e => .error e
      | .ok t => .ok (t.1, (c, ix) :: t.2) := by
  cases r <;> rfl

theorem resultOf_map_log {α : Type} (L : List String)
    (r : Except PyErr (DataFrame α × List (String × List Nat) × List String)) :
    resultOf (r.map fun t => (t.1, t.2.1, L ++ t.2.2)) = resultOf r := by
  cases r <;> rfl

theorem transformLoop_verbose {α : Type} :
    ∀ (store : List (String × StoredImputer α)) (X : DataFrame α),
      resultOf (transformLoop true store X) =
        resultOf (transformLoop false store X) := by
  intro store
  induction store with
  | nil => intro X; rfl
  | cons hd rest ih =>
    obtain ⟨c0, imp0⟩ := hd
    intro X
    cases hX : alookup X c0 with
    | none => simp only [transformLoop, hX]
    | some s =>
      by_cases hmi : missingIndices s.data = []
      · simp only [transformLoop, hX, if_pos hmi, resultOf_map_entry, ih X]
      · simp only [transformLoop, hX, if_neg hmi]
        cases hf : imp0.impute with
        | none => rfl
        | some f =>
          simp only [resultOf_map_entry, ih]

/-- Extraction: a successful `transform` call means the state was fitted,
the column check passed, and the loop produced the returned table and
`imputed_` record (up to the console banner). -/
theorem transform_ok_loop {α : Type} {st : SingleImputer α}
    {store : List (String × StoredImputer α)} {X X' : DataFrame α}
    {ixs : List (String × List Nat)} {log : List String}
    (hstore : st.statistics_ = some store)
    (h : SingleImputer.transform st X = .ok (X', ixs, log)) :
    (∃ log2, transformLoop st.verbose store X = .ok (X', ixs, log2))
    ∧ st.strats.any (fun p => !(alookup X p.1).isSome) ≠ true := by
  simp only [SingleImputer.transform, hstore] at h
  split at h
  · exact absurd h (by simp)
  · next hcond =>
    refine ⟨?_, hcond⟩
    cases hrec : transformLoop st.verbose store X with
    | error e => rw [hrec] at h; simp [Except.map] at h
    | ok r =>
      obtain ⟨X1, ixs1, log1⟩ := r
      rw [hrec] at h
      simp only [Except.map, Except.ok.injEq, Prod.mk.injEq] at h
      obtain ⟨hx, hi, hl⟩ := h
      subst hx; subst hi
      exact ⟨log1, rfl⟩

/-- Partial progress of the fit loop: the store always extends the
accumulator with exactly the columns of an initial segment of the strategy
list, the whole list on success, a proper initial segment on failure. -/
theorem fitLoop_partial {α : Type}
    (registry : List (String × ImputerFactory α))
    (kwgs : Option (List (String × List (String × String))))
    (X : DataFrame α) :
    ∀ (strats : List (String × String))
      (acc store : List (String × StoredImputer α)) (res : Except PyErr Unit),
      fitLoop registry kwgs X strats acc = (store, res) →
      ∃ pre post, strats = pre ++ post
        ∧ store.map Prod.fst = acc.map Prod.fst ++ pre.map Prod.fst
        ∧ (res = .ok () → post = [])
        ∧ (∀ e, res = .error e → post ≠ []) := by
  intro strats
  induction strats with
  | nil =>
    intro acc store res h
    simp only [fitLoop, Prod.mk.injEq] at h
    obtain ⟨h1, h2⟩ := h
    subst h1; subst h2
    exact ⟨[], [], by simp, by simp, fun _ => rfl, fun e he => by simp at he⟩
  | cons hd rest ih =>
    obtain ⟨column, method⟩ := hd
    intro acc store res h
    rw [fitLoop] at h
    split at h
    · simp only [Prod.mk.injEq] at h
      obtain ⟨h1, h2⟩ := h
      subst h1; subst h2
      exact ⟨[], (column, method) :: rest, by simp, by simp,
        fun hok => by simp at hok, fun e _ => by simp⟩
    · next imp hreg =>
      split at h
      · simp only [Prod.mk.injEq] at h
        obtain ⟨h1, h2⟩ := h
        subst h1; subst h2
        exact ⟨[], (column, method) :: rest, by simp, by simp,
          fun hok => by simp at hok, fun e _ => by simp⟩
      · simp only [Prod.mk.injEq] at h
        obtain ⟨h1, h2⟩ := h
        subst h1; subst h2
        exact ⟨[], (column, method) :: rest, by simp, by simp,
          fun hok => by simp at hok, fun e _ => by simp⟩
      · next unfitted hcon =>
        split at h
        · simp only [Prod.mk.injEq] at h
          obtain ⟨h1, h2⟩ := h
          subst h1; subst h2
          exact ⟨[], (column, method) :: rest, by simp, by simp,
            fun hok => by simp at hok, fun e _ => by simp⟩
        · next series hser =>
          obtain ⟨pre, post, hsplit, hkeys, hok, herr⟩ := ih _ store res h
          refine ⟨(column, method) :: pre, post, by simp [hsplit], ?_, hok, herr⟩
          simp only [hkeys, List.map_append, List.map_cons, List.map_nil]
          simp

/-! Concrete fixtures for claim-level runs and witnesses (the value type is
`Int`; the statistical sub-imputers are stubs, their numerics being
external to the verified core). -/

/-- A trivially fitted statistical sub-imputer stub. -/
def dummyFitted : FittedSub Int := ⟨id, id⟩

/-- A stub numeric sub-imputer named `mean`. -/
def dummyNum : SubImputer Int := ⟨"mean", fun _ => dummyFitted⟩

/-- A stub categorical sub-imputer named `mode`. -/
def dummyCat : SubImputer Int := ⟨"mode", fun _ => dummyFitted⟩

/-- Registry holding only the `default` entry. -/
def regDefault : List (String × ImputerFactory Int) :=
  [("default", defaultSingleFactory dummyNum dummyCat)]

/-- A freshly constructed `SingleImputer()` (default strategy, unfitted). -/
def stInit : SingleImputer Int :=
  ⟨.str "default", none, true, false, [], none, none⟩

/-- One numeric column `a` with a missing value at row 1. -/
def dfNum : DataFrame Int := [("a", ⟨.numeric, [some 1, none]⟩)]

/-- A stored imputer whose impute method fills with the constant 7. -/
def impW : StoredImputer Int := ⟨"mean", some fun _ _ => some 7⟩

/-- A `SingleImputer` fitted on column `a` with the stored imputer above. -/
def stW : SingleImputer Int :=
  ⟨.str "mean", none, true, false, [("a", "mean")], some [("a", impW)], none⟩

/-- Input table for `stW`: column `a` missing at row 1. -/
def XW : DataFrame Int := [("a", ⟨.numeric, [some 5, none]⟩)]

/-- Output of transforming `XW` with `stW`. -/
def XW2 : DataFrame Int := [("a", ⟨.numeric, [some 5, some 7]⟩)]

/-- A `SingleImputer` fitted on a column `zzz`. -/
def stZ : SingleImputer Int :=
  ⟨.str "mean", none, true, false, [("zzz", "mean")], some [("zzz", impW)], none⟩

/-- A table without the fitted column `zzz`. -/
def XZ : DataFrame Int := [("b", ⟨.numeric, [some 1]⟩)]

/-- A factory whose construction raises the ValueError that
`DefaultBaseImputer.__init__` itself raises on non-dict kwargs. -/
def ctorValErr : ImputerFactory Int :=
  ⟨"DefaultSingleImputer", fun _ =>
    .error (.valueError "cat_kwgs must be dict of args used to init cat_imputer.")⟩

/-- A factory whose construction raises a TypeError (bad keyword). -/
def ctorTypeErr : ImputerFactory Int :=
  ⟨"MeanImputer", fun _ =>
    .error (.typeError "unexpected keyword argument")⟩

/-- The stored imputer produced by `goodFactory`. -/
def goodStored : StoredImputer Int := ⟨"mean", some fun _ _ => some 3⟩

/-- A factory whose construction and fit always succeed. -/
def goodFactory : ImputerFactory Int :=
  ⟨"MeanImputer", fun _ => .ok ⟨fun _ => goodStored⟩⟩

/-- Registry whose `default` entry fails construction with a ValueError. -/
def regV : List (String × ImputerFactory Int) := [("default", ctorValErr)]

/-- Registry whose `mean` entry fails construction with a TypeError. -/
def regT : List (String × ImputerFactory Int) := [("mean", ctorTypeErr)]

/-- An unfitted `SingleImputer(strategy="mean")`. -/
def stMean : SingleImputer Int :=
  ⟨.str "mean", none, true, false, [], none, none⟩

/-- One numeric column named `zzz` with a missing value. -/
def dfZZZ : DataFrame Int := [("zzz", ⟨.numeric, [some 1, none]⟩)]

/-! Claim-level theorems. -/

/-- C1: the spec's pluggable-imputer contract requires the Default
Delegation Engine (`DefaultSingleImputer`, the Registry's `default` entry)
to expose `impute(column)` so the orchestrator's transform loop can invoke
`imputer.impute` on a column fitted with the default strategy.  The class
defines `fit` and `transform` but no `impute` method, so fitting the
default strategy succeeds and the first transform that has anything to
impute raises `AttributeError` at `imputer.impute(X[column])`. -/
theorem default_strategy_impute_attribute_error :
    (SingleImputer.fit regDefault stInit dfNum).2 = .ok ()
    ∧ ((DefaultBaseImputer.fit (⟨dummyNum, dummyCat, none⟩ : DefaultBaseImputer Int)
        ⟨Dtype.numeric, [some 1, none]⟩).toStored).impute = none
    ∧ SingleImputer.transform (SingleImputer.fit regDefault stInit dfNum).1 dfNum
        = .error (.attributeError "impute") :=
  ⟨rfl, rfl, rfl⟩

/-- C4 counterexample: the claim says the failure names the missing
columns; the raised error carries the fixed message
`Same columns that were fit must appear in transform.`, which does not
contain the missing column's name `zzz`. -/
theorem transform_mismatch_error_not_naming_columns :
    SingleImputer.transform stZ XZ
      = .error (.valueError "Same columns that were fit must appear in transform.")
    ∧ strHasSub "Same columns that were fit must appear in transform." "zzz"
        = false :=
  ⟨rfl, by decide⟩

/-- C4 amended: transform on a table lacking a column fitted at fit time
fails with the column-mismatch ValueError, whose fixed message does not
name the missing columns; when every fitted column appears in the input,
the check passes and transform proceeds to the per-column loop. -/
theorem transform_column_mismatch_check {α : Type} (st : SingleImputer α)
    (store : List (String × StoredImputer α)) (X : DataFrame α)
    (hstore : st.statistics_ = some store) :
    ((∃ p ∈ st.strats, alookup X p.1 = none) →
      SingleImputer.transform st X
        = .error (.valueError "Same columns that were fit must appear in transform."))
    ∧ ((∀ p ∈ st.strats, (alookup X p.1).isSome) →
      SingleImputer.transform st X
        = (transformLoop st.verbose store X).map fun r =>
            (r.1, r.2.1, (if st.verbose then [transformBanner] else []) ++ r.2.2)) := by
  constructor
  · rintro ⟨p, hp, hnone⟩
    have hc : st.strats.any (fun p => !(alookup X p.1).isSome) = true := by
      rw [List.any_eq_true]
      exact ⟨p, hp, by rw [hnone]; rfl⟩
    simp only [SingleImputer.transform, hstore, if_pos hc]
  · intro hall
    have hc : ¬ (st.strats.any (fun p => !(alookup X p.1).isSome) = true) := by
      rw [List.any_eq_true]
      rintro ⟨p, hp, hb⟩
      rw [hall p hp] at hb
      simp at hb
    simp only [SingleImputer.transform, hstore, if_neg hc]

/-- C4 witness: with one fitted column present in the input, the check
passes and the call reduces to the per-column loop. -/
theorem transform_column_mismatch_check_witness :
    SingleImputer.transform stW XW
      = (transformLoop stW.verbose [("a", impW)] XW).map fun r =>
          (r.1, r.2.1, (if stW.verbose then [transformBanner] else []) ++ r.2.2) :=
  (transform_column_mismatch_check stW [("a", impW)] XW rfl).2 (by decide)

/-- C5: `DefaultBaseImputer.fit` classifies the column's dtype into exactly
one of numeric, textual, other: the numeric case stores the numeric
sub-imputer's fit result and strategy name, the string case the categorical
sub-imputer's, and any other dtype stores a null statistic and null
strategy name; the sub-imputer instances are left unchanged. -/
theorem defaultBase_fit_classifies_dtype {α : Type}
    (self : DefaultBaseImputer α) (X : Series α) :
    (DefaultBaseImputer.fit self X).statistics_ =
      some (match X.dtype with
        | Dtype.numeric =>
            ⟨some (self.num_imputer.fit X), some self.num_imputer.strategy⟩
        | Dtype.string =>
            ⟨some (self.cat_imputer.fit X), some self.cat_imputer.strategy⟩
        | Dtype.other => ⟨none, none⟩)
    ∧ (DefaultBaseImputer.fit self X).num_imputer = self.num_imputer
    ∧ (DefaultBaseImputer.fit self X).cat_imputer = self.cat_imputer := by
  obtain ⟨dt, d⟩ := X
  cases dt <;> exact ⟨rfl, rfl, rfl⟩

/-- C6 counterexample: the claim says every construction failure is
wrapped, naming the imputer and the column.  A ValueError raised by a
constructor (here the very message `DefaultBaseImputer.__init__` raises on
bad kwargs) escapes `SingleImputer.fit` unwrapped — identical to the
constructor's own error, naming neither — and even the wrapped TypeError
path produces a message that names the imputer but not the column `zzz`. -/
theorem fit_construction_error_escapes_unwrapped :
    (SingleImputer.fit regV stInit dfZZZ).2
      = .error (.valueError "cat_kwgs must be dict of args used to init cat_imputer.")
    ∧ ctorValErr.construct (fit_init_params "zzz" "default" none)
      = .error (.valueError "cat_kwgs must be dict of args used to init cat_imputer.")
    ∧ (SingleImputer.fit regT stMean dfZZZ).2
      = .error (.valueError "Invalid arguments passed to MeanImputer __init__ method.")
    ∧ strHasSub "Invalid arguments passed to MeanImputer __init__ method." "zzz"
      = false :=
  ⟨rfl, rfl, rfl, by decide⟩

/-- C6 amended: at the iteration of the fit loop where construction fails,
a TypeError is wrapped into `ValueError("Invalid arguments passed to
{name} __init__ method.")` — naming the imputer, not the column — while a
ValueError raised by the constructor propagates unwrapped. -/
theorem fit_construction_typeError_wrapped {α : Type}
    (registry : List (String × ImputerFactory α))
    (kwgs : Option (List (String × List (String × String))))
    (X : DataFrame α) (column method : String)
    (rest : List (String × String)) (acc : List (String × StoredImputer α))
    (imp : ImputerFactory α) (hreg : alookup registry method = some imp) :
    (∀ m, imp.construct (fit_init_params column method kwgs)
        = .error (.typeError m) →
      fitLoop registry kwgs X ((column, method) :: rest) acc
        = (acc, .error (.valueError
            ("Invalid arguments passed to " ++ imp.name ++ " __init__ method."))))
    ∧ (∀ m, imp.construct (fit_init_params column method kwgs)
        = .error (.valueError m) →
      fitLoop registry kwgs X ((column, method) :: rest) acc
        = (acc, .error (.valueError m))) := by
  constructor
  · intro m hcon
    simp only [fitLoop, hreg, hcon]
  · intro m hcon
    simp only [fitLoop, hreg, hcon]

/-- C6 witness: the wrapping branch at a concrete TypeError-raising
factory. -/
theorem fit_construction_typeError_wrapped_witness :
    fitLoop regT none dfZZZ [("zzz", "mean")] []
      = ([], .error (.valueError
          "Invalid arguments passed to MeanImputer __init__ method.")) :=
  (fit_construction_typeError_wrapped regT none dfZZZ "zzz" "mean" [] []
    ctorTypeErr rfl).1 "unexpected keyword argument" rfl

/-- C9: `DefaultBaseImputer.transform` on a fitted state returns the very
object it was given — the delegated sub-imputer's in-place mutation when a
sub-imputer was stored, the unchanged column when the stored param is null
— the sub-imputer's own return value being discarded (replacing it changes
nothing), and `DefaultSingleImputer.transform` returns exactly the same
object. -/
theorem defaultBase_transform_returns_argument {α : Type}
    (self : DefaultBaseImputer α) (stats : DefaultStats α) (X : Series α)
    (h : self.statistics_ = some stats) :
    DefaultBaseImputer.transform self X
      = .ok (match stats.param with
          | some imp => imp.transformMut X
          | none => X)
    ∧ DefaultSingleImputer.transform self X = DefaultBaseImputer.transform self X
    ∧ ∀ (imp : FittedSub α) (g : Series α → Series α) (os : Option String),
        DefaultBaseImputer.transform
            { self with statistics_ := some ⟨some { imp with transformRet := g }, os⟩ } X
          = DefaultBaseImputer.transform
            { self with statistics_ := some ⟨some imp, os⟩ } X := by
  refine ⟨?_, rfl, ?_⟩
  · simp only [DefaultBaseImputer.transform, h]
    cases stats.param <;> rfl
  · intro imp g os
    rfl

/-- C9 witness: a concrete fitted default imputer returns the mutated
argument. -/
theorem defaultBase_transform_returns_argument_witness :
    DefaultBaseImputer.transform
        (⟨dummyNum, dummyCat, some ⟨some dummyFitted, some "mean"⟩⟩ :
          DefaultBaseImputer Int)
        ⟨Dtype.numeric, [some 1, none]⟩
      = .ok (dummyFitted.transformMut ⟨Dtype.numeric, [some 1, none]⟩) :=
  (defaultBase_transform_returns_argument _ _ _ rfl).1

/-- C2: after a successful transform, the Imputed-Index Record has exactly
the Statistics Store's columns as keys, maps each one to precisely the
ordered list of row positions that were missing in that column of the
input table — empty when nothing was missing — and is rebuilt from
scratch: the record left in the object by any previous call has no
influence on the result. -/
theorem transform_imputed_record_exact {α : Type} (st : SingleImputer α)
    (store : List (String × StoredImputer α)) (X X2 : DataFrame α)
    (ixs : List (String × List Nat)) (log : List String)
    (hstore : st.statistics_ = some store)
    (hnodup : (store.map Prod.fst).Nodup)
    (h : SingleImputer.transform st X = .ok (X2, ixs, log)) :
    ixs.map Prod.fst = store.map Prod.fst
    ∧ (∀ p ∈ store, ∃ s, alookup X p.1 = some s
        ∧ alookup ixs p.1 = some (missingIndices s.data))
    ∧ ∀ j, SingleImputer.transform { st with imputed_ := j } X
        = SingleImputer.transform st X := by
  obtain ⟨⟨log2, hloop⟩, hcond⟩ := transform_ok_loop hstore h
  refine ⟨(transformLoop_keys st.verbose store X X2 ixs log2 hloop).1, ?_, ?_⟩
  · intro p hp
    obtain ⟨c, imp⟩ := p
    obtain ⟨s, hs, hix, _, _⟩ :=
      transformLoop_columns st.verbose store X X2 ixs log2 hnodup hloop c imp hp
    exact ⟨s, hs, hix⟩
  · intro j
    obtain ⟨strat, kw, cp, vb, strats, stats, imputed⟩ := st
    rfl

/-- C2 witness: a concrete successful transform records exactly the missing
row position. -/
theorem transform_imputed_record_exact_witness :
    ([("a", [1])] : List (String × List Nat)).map Prod.fst
      = ([("a", impW)] : List (String × StoredImputer Int)).map Prod.fst :=
  (transform_imputed_record_exact stW [("a", impW)] XW XW2 [("a", [1])] []
    rfl (by decide) rfl).1

/-- C3: during a successful transform, for every column of the Statistics
Store the written column keeps its dtype and length, every observed (non
missing) position keeps its original value, a column with no missing
positions is returned untouched, and columns outside the store are not
written at all. -/
theorem transform_preserves_observed_values {α : Type} (st : SingleImputer α)
    (store : List (String × StoredImputer α)) (X X2 : DataFrame α)
    (ixs : List (String × List Nat)) (log : List String)
    (hstore : st.statistics_ = some store)
    (hnodup : (store.map Prod.fst).Nodup)
    (h : SingleImputer.transform st X = .ok (X2, ixs, log)) :
    (∀ p ∈ store, ∃ s s2, alookup X p.1 = some s ∧ alookup X2 p.1 = some s2
        ∧ s2.dtype = s.dtype ∧ s2.data.length = s.data.length
        ∧ (∀ i v, s.data.getD i none = some v → s2.data.getD i none = some v)
        ∧ (missingIndices s.data = [] → s2 = s))
    ∧ ∀ c, c ∉ store.map Prod.fst → alookup X2 c = alookup X c := by
  obtain ⟨⟨log2, hloop⟩, hcond⟩ := transform_ok_loop hstore h
  refine ⟨?_, (transformLoop_keys st.verbose store X X2 ixs log2 hloop).2⟩
  intro p hp
  obtain ⟨c, imp⟩ := p
  obtain ⟨s, hs, _, hemp, hfill⟩ :=
    transformLoop_columns st.verbose store X X2 ixs log2 hnodup hloop c imp hp
  by_cases hmi : missingIndices s.data = []
  · exact ⟨s, s, hs, hemp hmi, rfl, rfl, fun i v hv => hv, fun _ => rfl⟩
  · obtain ⟨f, hf, hx2⟩ := hfill hmi
    refine ⟨s, ⟨s.dtype, imputeData f s⟩, hs, hx2, rfl, length_imputeData f s,
      ?_, fun he => absurd he hmi⟩
    intro i v hv
    exact getD_imputeFrom_observed f s s.data 0 i v hv

/-- C3 witness: the observed value at row 0 of the concrete run is
preserved; column `b`, not in the store, is untouched. -/
theorem transform_preserves_observed_values_witness :
    alookup XW2 "b" = alookup XW "b" :=
  (transform_preserves_observed_values stW [("a", impW)] XW XW2 [("a", [1])] []
    rfl (by decide) rfl).2 "b" (by decide)

/-- C7: the verbose flag is strictly observational for transform — with
the console log erased, a run with `verbose=True` and a run with
`verbose=False` from the same fitted state on the same table return the
same table, the same Imputed-Index Record, and the same success-or-error
outcome. -/
theorem transform_verbose_noninterference {α : Type} (st : SingleImputer α)
    (X : DataFrame α) :
    resultOf (SingleImputer.transform { st with verbose := true } X)
      = resultOf (SingleImputer.transform { st with verbose := false } X) := by
  obtain ⟨strat, kw, cp, vb, strats, stats, imputed⟩ := st
  simp only [SingleImputer.transform]
  cases stats with
  | none => rfl
  | some store =>
    by_cases hc : strats.any (fun p => !(alookup X p.1).isSome) = true
    · simp only [if_pos hc]
    · simp only [if_neg hc, resultOf_map_log, transformLoop_verbose]

/-- C8: transform is idempotent on its own output: provided every stored
imputer's impute method returns a non-missing value at each requested
(missing) position, a successful transform leaves no missing positions in
the store's columns, and running transform again on that output with the
same fitted state returns the table unchanged with every column's imputed
index list empty. -/
theorem transform_idempotent {α : Type} (st : SingleImputer α)
    (store : List (String × StoredImputer α)) (X X2 : DataFrame α)
    (ixs : List (String × List Nat)) (log : List String)
    (hstore : st.statistics_ = some store)
    (hnodup : (store.map Prod.fst).Nodup)
    (himp : ∀ p ∈ store, ∀ f, p.2.impute = some f →
        ∀ (s : Series α), ∀ i ∈ missingIndices s.data, (f s i).isSome)
    (h : SingleImputer.transform st X = .ok (X2, ixs, log)) :
    (∀ p ∈ store, ∃ s2, alookup X2 p.1 = some s2 ∧ missingIndices s2.data = [])
    ∧ resultOf (SingleImputer.transform st X2)
        = .ok (X2, store.map fun p => (p.1, ([] : List Nat))) := by
  obtain ⟨⟨log2, hloop⟩, hcond⟩ := transform_ok_loop hstore h
  have hdone : ∀ p ∈ store, ∃ s2, alookup X2 p.1 = some s2
      ∧ missingIndices s2.data = [] := by
    intro p hp
    obtain ⟨c, imp⟩ := p
    obtain ⟨s, hs, _, hemp, hfill⟩ :=
      transformLoop_columns st.verbose store X X2 ixs log2 hnodup hloop c imp hp
    by_cases hmi : missingIndices s.data = []
    · exact ⟨s, hemp hmi, hmi⟩
    · obtain ⟨f, hf, hx2⟩ := hfill hmi
      exact ⟨⟨s.dtype, imputeData f s⟩, hx2,
        missingIndices_imputeData f s (himp (c, imp) hp f hf s)⟩
  refine ⟨hdone, ?_⟩
  have hiso : ∀ c, (alookup X2 c).isSome = (alookup X c).isSome := by
    intro c
    by_cases hcs : c ∈ store.map Prod.fst
    · obtain ⟨q, hq, hq1⟩ := List.mem_map.mp hcs
      obtain ⟨cq, impq⟩ := q
      obtain ⟨s, hs, _, _, _⟩ :=
        transformLoop_columns st.verbose store X X2 ixs log2 hnodup hloop cq impq hq
      obtain ⟨s2, hs2, _⟩ := hdone (cq, impq) hq
      simp only at hq1
      subst hq1
      rw [hs, hs2]
      rfl
    · rw [(transformLoop_keys st.verbose store X X2 ixs log2 hloop).2 c hcs]
  have hcond2 : ¬ (st.strats.any (fun p => !(alookup X2 p.1).isSome) = true) := by
    rw [List.any_eq_true]
    rintro ⟨p, hp, hb⟩
    rw [hiso p.1] at hb
    exact hcond (List.any_eq_true.mpr ⟨p, hp, hb⟩)
  obtain ⟨log3, hloop2⟩ := transformLoop_noMissing st.verbose store X2 hdone
  simp only [SingleImputer.transform, hstore, if_neg hcond2, hloop2, Except.map,
    resultOf]

/-- C8 witness: the concrete run fills row 1 of column `a`; on its output
nothing is missing, and the second transform is the identity with an empty
record. -/
theorem transform_idempotent_witness :
    resultOf (SingleImputer.transform stW XW2)
      = .ok (XW2, ([("a", impW)] : List (String × StoredImputer Int)).map
          fun p => (p.1, ([] : List Nat))) :=
  (transform_idempotent stW [("a", impW)] XW XW2 [("a", [1])] [] rfl (by decide)
    (by
      intro p hp f hf s i hi
      simp only [List.mem_singleton] at hp
      subst hp
      simp only [impW, Option.some.injEq] at hf
      subst hf
      rfl)
    rfl).2

/-- C10: when fit fails after strategy validation succeeded (for example a
column's imputer construction raises), the previous store has already been
discarded and `statistics_` holds exactly the columns fitted before the
failing one (an initial segment of the resolved strategy list); the state
left behind does not depend on the previous store, and a subsequent
transform never raises `NotFittedError` and records (hence imputes) only
those partially fitted columns. -/
theorem fit_partial_failure_state {α : Type}
    (registry : List (String × ImputerFactory α)) (st st2 : SingleImputer α)
    (X : DataFrame α) (strats : List (String × String)) (e : PyErr)
    (hval : check_strategy_fit (registry.map Prod.fst) st.strategy
        (X.map Prod.fst) = .ok strats)
    (hfit : SingleImputer.fit registry st X = (st2, .error e)) :
    ∃ store pre post, strats = pre ++ post ∧ post ≠ []
      ∧ st2.statistics_ = some store
      ∧ store.map Prod.fst = pre.map Prod.fst
      ∧ (∀ j, SingleImputer.fit registry { st with statistics_ := j } X
          = (st2, .error e))
      ∧ (∀ Y, SingleImputer.transform st2 Y ≠ .error .notFittedError)
      ∧ (∀ Y Y2 ixs2 log2, SingleImputer.transform st2 Y = .ok (Y2, ixs2, log2) →
          ixs2.map Prod.fst = store.map Prod.fst) := by
  simp only [SingleImputer.fit, hval] at hfit
  rcases hfl : fitLoop registry st.imp_kwgs X strats [] with ⟨store, res⟩
  rw [hfl] at hfit
  simp only [Prod.mk.injEq] at hfit
  obtain ⟨hst2, hres⟩ := hfit
  subst hres
  obtain ⟨pre, post, hsplit, hkeys, _, herr⟩ :=
    fitLoop_partial registry st.imp_kwgs X strats [] store (.error e) hfl
  simp only [List.map_nil, List.nil_append] at hkeys
  refine ⟨store, pre, post, hsplit, herr e rfl, ?_, hkeys, ?_, ?_, ?_⟩
  · rw [← hst2]
  · intro j
    simp only [SingleImputer.fit, hval, hfl, hst2]
  · intro Y hcontra
    rw [← hst2] at hcontra
    simp only [SingleImputer.transform] at hcontra
    split at hcontra
    · simp at hcontra
    · cases hrec : transformLoop st.verbose store Y with
      | ok r => rw [hrec] at hcontra; simp [Except.map] at hcontra
      | error e2 =>
        rw [hrec] at hcontra
        simp only [Except.map, Except.error.injEq] at hcontra
        subst hcontra
        exact transformLoop_ne_notFitted st.verbose store Y hrec
  · intro Y Y2 ixs2 log2 htr
    have hstore2 : st2.statistics_ = some store := by rw [← hst2]
    obtain ⟨⟨log3, hloop⟩, _⟩ := transform_ok_loop hstore2 htr
    exact (transformLoop_keys st2.verbose store Y Y2 ixs2 log3 hloop).1

/-- Registry with a succeeding `mean` entry and a construction-failing
`boom` entry. -/
def regP : List (String × ImputerFactory Int) :=
  [("mean", goodFactory), ("boom", ctorValErr)]

/-- An unfitted `SingleImputer` with a positional strategy list. -/
def stP : SingleImputer Int :=
  ⟨.seq ["mean", "boom"], none, true, false, [], none, none⟩

/-- Two numeric columns, each with one missing value. -/
def dfP : DataFrame Int :=
  [("a", ⟨.numeric, [some 1, none]⟩), ("b", ⟨.numeric, [none, some 2]⟩)]

/-- The state `fit regP stP dfP` leaves behind: strategy validation
succeeded, column `a` was fitted, then construction for `b` failed. -/
def stP2 : SingleImputer Int :=
  ⟨.seq ["mean", "boom"], none, true, false,
   [("a", "mean"), ("b", "boom")], some [("a", goodStored)], none⟩

/-- C10 witness: a concrete fit failing at the second of two columns. -/
theorem fit_partial_failure_state_witness :
    ∃ (store : List (String × StoredImputer Int))
      (pre post : List (String × String)),
      ([("a", "mean"), ("b", "boom")] : List (String × String)) = pre ++ post
      ∧ post ≠ []
      ∧ stP2.statistics_ = some store
      ∧ store.map Prod.fst = pre.map Prod.fst
      ∧ (∀ j, SingleImputer.fit regP { stP with statistics_ := j } dfP
          = (stP2, .error (.valueError
              "cat_kwgs must be dict of args used to init cat_imputer.")))
      ∧ (∀ Y, SingleImputer.transform stP2 Y ≠ .error .notFittedError)
      ∧ (∀ Y Y2 ixs2 log2,
          SingleImputer.transform stP2 Y = .ok (Y2, ixs2, log2) →
          ixs2.map Prod.fst = store.map Prod.fst) :=
  fit_partial_failure_state regP stP stP2 dfP [("a", "mean"), ("b", "boom")]
    (.valueError "cat_kwgs must be dict of args used to init cat_imputer.")
    rfl rfl

end Autoimpute
